import Mathlib

/-!
Shallow embedding of `src/table/rtree_table_reader.cc` (RocksDB rtree table
reader and its forward iterator), together with theorems settling the claims
about it.

Modelling conventions:
- `Status` keeps only the constructor tags of `rocksdb::Status`; the message
  strings attached in the source are constants and carry no control flow, so
  they are dropped.
- Keys, values and slices are modelled as `Nat`.  The internal comparator is
  an external collaborator whose ordering semantics the spec leaves abstract;
  it is instantiated by the total order on `Nat`, with
  `Compare(a, b) >= 0` rendered as `b ≤ a`.
- Loops whose termination is in question (`Seek`'s scan, `Get`'s scan) are
  given a fuel parameter and return `Option`; `none` means the fuel ran out,
  and a result of `none` for every fuel amount expresses divergence.
- `assert(...)` in the accessors `key()`/`value()` is modelled by returning
  `Option` (`none` = assertion violation).  The unconditional `assert(false)`
  at the top of `SeekToLast`/`Prev`/`SeekForPrev` aborts a debug build before
  any other effect; those functions are modelled with the release (`NDEBUG`)
  semantics under which the assert is a no-op, which is the behaviour the
  spec describes for them.
-/

namespace RtreeTable

/-- Outcome tags of `rocksdb::Status` used by this translation unit. -/
inductive Status where
  | ok
  | corruption
  | ioError
  | notSupported
  | invalidFormat
deriving DecidableEq

/-- `Status::ok()`. -/
def Status.isOk : Status → Bool
  | .ok => true
  | _ => false

/-- Modelled from the spec: the member `data_start_offset_` is declared in the
missing header `rtree_table_reader.h`; spec §4.3 fixes its value: "compute
`data_start_offset = 0` (no leading index block in this layout)". -/
def data_start_offset : Nat := 0

/-- Reader state visible to the iterator: `file_info_.data_end_offset`
(src/table/rtree_table_reader.cc:212, 219, 225-226, 238, 245, 257, 263). -/
structure RtreeTableReader where
  data_end_offset : Nat
deriving DecidableEq

/-- `RtreeTableReader::RtreeTableReader`
(src/table/rtree_table_reader.cc:92-103): `file_info_` is built with
`static_cast<uint32_t>(table_properties->data_size)`, a narrowing cast,
i.e. reduction of `data_size` modulo `2^32`.  The constructor is total:
no status is produced and no bound is checked. -/
def mkReader (data_size : Nat) : RtreeTableReader :=
  ⟨data_size % 2 ^ 32⟩

/-- `RtreeTableReader::Next` (src/table/rtree_table_reader.cc:157-177).
The entire body is commented out except `return Status::OK();` (the comment
at line 175 reads "XXX vmx 2016-12-13: implement  the actual iterator"),
so the function returns `Status::OK()` and writes none of its four output
parameters `(offset, parsed_key, internal_key, value)`.  The returned tuple
is `(status, *offset, *parsed_key, *internal_key, *value)` after the call. -/
def readerNext (offset parsed_key internal_key value : Nat) :
    Status × Nat × Nat × Nat × Nat :=
  (Status.ok, offset, parsed_key, internal_key, value)

/-- Cursor state of `RtreeTableIterator`
(src/table/rtree_table_reader.cc:80-85): `offset_`, `next_offset_`,
`key_`, `value_`, `status_`. -/
structure IterState where
  offset : Nat
  next_offset : Nat
  key : Nat
  value : Nat
  status : Status
deriving DecidableEq

/-- `RtreeTableIterator::RtreeTableIterator`
(src/table/rtree_table_reader.cc:210-213): sets
`next_offset_ = offset_ = table_->file_info_.data_end_offset`; `key_`,
`value_` stay default-constructed empty slices (modelled as `0`) and
`status_` stays the default `Status::OK()`. -/
def initIter (r : RtreeTableReader) : IterState :=
  ⟨r.data_end_offset, r.data_end_offset, 0, 0, Status.ok⟩

/-- `RtreeTableIterator::Valid` (src/table/rtree_table_reader.cc:218-221):
`offset_ < data_end_offset && offset_ >= data_start_offset_`.  Note that
`status_` is not consulted. -/
def itValid (r : RtreeTableReader) (s : IterState) : Bool :=
  decide (s.offset < r.data_end_offset) && decide (data_start_offset ≤ s.offset)

/-- `RtreeTableIterator::Next` (src/table/rtree_table_reader.cc:255-266):
`offset_ = next_offset_`; if still inside the data region, calls
`table_->Next(&next_offset_, &parsed_key, &key_, &value_)` (with a fresh
local `parsed_key`, modelled as `0`), storing the status; a non-ok status
forces `offset_ = next_offset_ = data_end_offset`. -/
def itNext (r : RtreeTableReader) (s : IterState) : IterState :=
  if s.next_offset < r.data_end_offset then
    match readerNext s.next_offset 0 s.key s.value with
    | (st, no, _pk, k, v) =>
      if st.isOk then ⟨s.next_offset, no, k, v, st⟩
      else ⟨r.data_end_offset, r.data_end_offset, k, v, st⟩
  else
    { s with offset := s.next_offset }

/-- `RtreeTableIterator::SeekToFirst` (src/table/rtree_table_reader.cc:223-230):
`next_offset_ = data_start_offset_`; if that is `>= data_end_offset` the
cursor is parked at `data_end_offset` (no record is decoded), otherwise one
`Next()` materialises the first record. -/
def itSeekToFirst (r : RtreeTableReader) (s : IterState) : IterState :=
  let s1 := { s with next_offset := data_start_offset }
  if r.data_end_offset ≤ s1.next_offset then
    { s1 with next_offset := r.data_end_offset, offset := r.data_end_offset }
  else
    itNext r s1

/-- `RtreeTableIterator::SeekToLast` (src/table/rtree_table_reader.cc:232-235):
after the debug-only `assert(false)`, sets
`status_ = Status::NotSupported(...)`; no cursor field changes. -/
def itSeekToLast (s : IterState) : IterState :=
  { s with status := Status.notSupported }

/-- `RtreeTableIterator::SeekForPrev` (src/table/rtree_table_reader.cc:249-253):
after the debug-only `assert(false)`, sets
`status_ = Status::NotSupported(...)`. -/
def itSeekForPrev (s : IterState) : IterState :=
  { s with status := Status.notSupported }

/-- `RtreeTableIterator::Prev` (src/table/rtree_table_reader.cc:268-270):
the body is only the debug-only `assert(false)`; no field changes, in
particular `status_` is NOT set. -/
def itPrev (s : IterState) : IterState :=
  s

/-- Body of the `for` loop of `RtreeTableIterator::Seek`
(src/table/rtree_table_reader.cc:239-243), after the initial `Next()`:
while `status_.ok() && Valid()`, break when
`Compare(key(), target) >= 0`, else `Next()`.  Fuel-counted; `none` means
the fuel was exhausted with the loop still running. -/
def seekLoop (r : RtreeTableReader) (target : Nat) :
    Nat → IterState → Option IterState
  | 0, _ => none
  | Nat.succ fuel, s =>
    if s.status.isOk && itValid r s then
      if target ≤ s.key then some s
      else seekLoop r target fuel (itNext r s)
    else some s

/-- `RtreeTableIterator::Seek` (src/table/rtree_table_reader.cc:237-247):
if `next_offset_ < data_end_offset`, run the scan loop starting with one
`Next()`; otherwise set `offset_ = data_end_offset`. -/
def itSeek (fuel : Nat) (r : RtreeTableReader) (s : IterState) (target : Nat) :
    Option IterState :=
  if s.next_offset < r.data_end_offset then
    seekLoop r target fuel (itNext r s)
  else
    some { s with offset := r.data_end_offset }

/-- `RtreeTableIterator::key` (src/table/rtree_table_reader.cc:272-275):
`assert(Valid()); return key_;` — the assertion is modelled by `Option`,
`none` standing for an assertion violation. -/
def itKeyAccess (r : RtreeTableReader) (s : IterState) : Option Nat :=
  if itValid r s then some s.key else none

/-- `RtreeTableIterator::value` (src/table/rtree_table_reader.cc:277-280):
`assert(Valid()); return value_;`. -/
def itValueAccess (r : RtreeTableReader) (s : IterState) : Option Nat :=
  if itValid r s then some s.value else none

/-- Loop of `RtreeTableReader::Get` (src/table/rtree_table_reader.cc:192-202):
while `offset < data_end_offset`, call
`Next(&offset, &found_key, nullptr, &found_value)`; a non-ok status is
returned; when `Compare(found_key, parsed_target) >= 0`, call
`get_context->SaveValue(found_key, found_value)` and break on `false`.
The collector (`GetContext`) is modelled as a state `ctx : σ` with step
function `save`.  Fuel-counted; `none` means fuel exhaustion. -/
def getLoop {σ : Type} (r : RtreeTableReader) (target : Nat)
    (save : σ → Nat → Nat → Bool × σ) :
    Nat → Nat → Nat → Nat → σ → Option (Status × σ)
  | 0, _, _, _, _ => none
  | Nat.succ fuel, offset, found_key, found_value, ctx =>
    if offset < r.data_end_offset then
      match readerNext offset found_key 0 found_value with
      | (st, offset2, fk, _ik, fv) =>
        if st.isOk then
          if target ≤ fk then
            match save ctx fk fv with
            | (cont, ctx2) =>
              if cont then getLoop r target save fuel offset2 fk fv ctx2
              else some (Status.ok, ctx2)
          else getLoop r target save fuel offset2 fk fv ctx
        else some (st, ctx)
    else some (Status.ok, ctx)

/-- `RtreeTableReader::Get` (src/table/rtree_table_reader.cc:182-204).
`ParseInternalKey` belongs to the excluded internal-key codec
(`db/dbformat.h`, not under src/), so the target is carried already
parsed: `none` stands for a malformed target internal key (the parse
fails and `Status::Corruption` is returned), `some t` for a well-formed
one parsing to `t`.  `found_key0`/`found_value0` model the
default-constructed (uninitialised) locals `found_key`/`found_value`;
theorems quantify over them rather than pick a value. -/
def rtreeGet {σ : Type} (fuel : Nat) (r : RtreeTableReader)
    (target : Option Nat) (save : σ → Nat → Nat → Bool × σ)
    (found_key0 found_value0 : Nat) (ctx : σ) : Option (Status × σ) :=
  match target with
  | none => some (Status.corruption, ctx)
  | some t => getLoop r t save fuel 0 found_key0 found_value0 ctx

/-- `RtreeTableReader::ApproximateOffsetOf` (src/table/rtree_table_reader.cc:
206-208): `return 0;` — the pair returned here is (result, reader state
after the call), exhibiting that the reader is untouched. -/
def approximateOffsetOf (r : RtreeTableReader) (_key : Nat) :
    Nat × RtreeTableReader :=
  (0, r)

/-- `RtreeTableReader::Open` (src/table/rtree_table_reader.cc:108-132).
The two fallible collaborator steps are carried as their outcomes:
`propsStatus` is what `ReadTableProperties` returned (with `dataSize` the
`data_size` property it produced on success), `mmapStatus` is what
`MmapDataIfNeeded` returned.  The result pair is (returned status, final
value of `*table_reader`), where `none` means the output parameter was
never assigned. -/
def rtreeOpen (propsStatus : Status) (dataSize : Nat) (mmapStatus : Status) :
    Status × Option RtreeTableReader :=
  if propsStatus.isOk then
    if mmapStatus.isOk then (mmapStatus, some (mkReader dataSize))
    else (mmapStatus, none)
  else (propsStatus, none)

/-- Spec-level content of a table file (§3 of the spec): the records of the
data region together with the `data_size` the properties block reports.
The reader built from it (`mkReader`) depends only on `data_size`, because
the record codec (`RtreeTableReader::Next`) is left unimplemented in the
source. -/
structure TableFile where
  records : List (Nat × Nat)
  dataSize : Nat

/-- Reader obtained by opening a table file. -/
def readerOfTable (t : TableFile) : RtreeTableReader :=
  mkReader t.dataSize

/-- Concrete table used as failing input: one record with key 5 and value 7
occupying a non-empty data region of 13 bytes. -/
def t1 : TableFile :=
  ⟨[(5, 7)], 13⟩

/-- Reader over `t1`; its `data_end_offset` is 13. -/
def r1 : RtreeTableReader :=
  readerOfTable t1

/-- Iterator state after `SeekToFirst()` on a fresh iterator over `t1`. -/
def s1 : IterState :=
  itSeekToFirst r1 (initIter r1)

/-- Inside the data region, one `Next()` copies `next_offset_` into `offset_`
and the stubbed reader-level `Next` leaves every field it touches unchanged,
resetting `status_` to ok. -/
lemma itNext_inside (r : RtreeTableReader) (s : IterState)
    (h : s.next_offset < r.data_end_offset) :
    itNext r s = ⟨s.next_offset, s.next_offset, s.key, s.value, Status.ok⟩ := by
  simp [itNext, readerNext, Status.isOk, h]

/-- When the collector always asks to continue, the `Get` loop started inside
the data region never returns, whatever the fuel: the stubbed decoder never
advances `offset`, so the loop condition never fails and no break fires. -/
lemma getLoop_none_of_save_true {σ : Type} (r : RtreeTableReader) (t : Nat)
    (save : σ → Nat → Nat → Bool × σ)
    (hsave : ∀ c k v, (save c k v).1 = true) :
    ∀ fuel off fk fv ctx, off < r.data_end_offset →
      getLoop r t save fuel off fk fv ctx = none := by
  intro fuel
  induction fuel with
  | zero => intro off fk fv ctx h; rfl
  | succ n ih =>
    intro off fk fv ctx h
    by_cases ht : t ≤ fk
    · cases hs : save ctx fk fv with
      | mk cont ctx2 =>
        have hc := hsave ctx fk fv
        rw [hs] at hc
        dsimp at hc
        subst hc
        simp only [getLoop, readerNext, Status.isOk, if_pos h, if_pos ht, hs,
          if_pos rfl]
        exact ih off fk fv ctx2 h
    · simp only [getLoop, readerNext, Status.isOk, if_pos h, if_neg ht]
      exact ih off fk fv ctx h

/-- Claim C1.  The claim states that `Seek(T)` on a freshly-created iterator
leaves the iterator invalid only when no record of the data region has key
`>= T`, and otherwise positions it on the first such record.  This theorem
evaluates the code at the failing input: table `t1` contains the record
`(5, 7)` whose key satisfies `5 >= 3`, yet for every fuel amount
`Seek(3)` on a fresh iterator returns the state unchanged with
`offset_ = data_end_offset`, i.e. invalid — because the fresh iterator has
`next_offset_ = data_end_offset`, so the scan branch of `Seek` is never
entered. -/
theorem seek_from_fresh_iterator_ignores_existing_records :
    ((5, 7) ∈ t1.records ∧ 3 ≤ 5) ∧
    ∀ fuel, itSeek fuel r1 (initIter r1) 3 = some (initIter r1) ∧
      itValid r1 (initIter r1) = false := by
  refine ⟨⟨by decide, by decide⟩, ?_⟩
  intro fuel
  exact ⟨rfl, by decide⟩

/-- Claim C2.  The claim states that `SeekToFirst()` followed by repeated
`Next()` terminates, becoming invalid exactly when the cursor reaches
`data_end_offset`.  This theorem evaluates the code at the failing input:
over the non-empty table `t1`, the state `s1` reached by `SeekToFirst()`
is a fixed point of `Next()` — the stubbed record decoder never advances
`next_offset_` — so after any number of `Next()` calls the iterator is
still valid at offset 0 and never reaches `data_end_offset`: the iteration
does not terminate. -/
theorem seekToFirst_next_cursor_never_advances :
    t1.records ≠ [] ∧ 0 < r1.data_end_offset ∧
    itValid r1 s1 = true ∧ s1.offset ≠ r1.data_end_offset ∧
    ∀ n, (itNext r1)^[n] s1 = s1 := by
  refine ⟨by decide, by decide, by decide, by decide, ?_⟩
  intro n
  exact Function.iterate_fixed (by decide) n

/-- Claim C3.  The claim states that `Get(target, collector)` invokes the
collector exactly on the records with key `>= target` and returns `Ok`
when the scan completes.  This theorem evaluates the code at the failing
input: table `t1` holds the record `(5, 7)` with key `5 >= 5`, yet
`Get` with target 5 and the always-continue collector diverges — for every
fuel amount and every initial content of the uninitialised local
`found_key`/`found_value`, the scan never returns, because the stubbed
record decoder never advances `offset`. -/
theorem get_scan_never_completes :
    ((5, 7) ∈ t1.records ∧ 5 ≤ 5) ∧
    ∀ fuel fk0 fv0,
      rtreeGet fuel r1 (some 5) (fun (_ : Unit) _ _ => (true, ())) fk0 fv0 ()
        = none := by
  refine ⟨⟨by decide, by decide⟩, ?_⟩
  intro fuel fk0 fv0
  exact getLoop_none_of_save_true r1 5 _ (fun _ _ _ => rfl) fuel 0 fk0 fv0 ()
    (by decide)

/-- Claim C4, counterexample.  The claim states that `Prev()` results in
`status()` returning `NotSupported` for every table and iterator; on a
fresh iterator over `t1`, `Prev()` leaves `status()` equal to `OK` (its
body is only a debug-time `assert(false)`), so the claim as stated is
false. -/
theorem prev_leaves_status_ok :
    (itPrev (initIter r1)).status = Status.ok ∧
    ¬ (itPrev (initIter r1)).status = Status.notSupported := by
  decide

/-- Claim C4, amended.  `SeekToLast()` sets `status()` to `NotSupported`
but moves nothing, so a freshly-created iterator remains invalid (while an
already-positioned one keeps its position); `Prev()` changes neither the
status nor the position — it only trips a debug-build assertion — so on a
freshly-created iterator both calls leave the iterator invalid. -/
theorem seekToLast_prev_amended :
    ∀ (r : RtreeTableReader) (s : IterState),
      (itSeekToLast s).status = Status.notSupported ∧
      (itSeekToLast s).offset = s.offset ∧
      (itSeekToLast s).next_offset = s.next_offset ∧
      itPrev s = s ∧
      itValid r (itSeekToLast (initIter r)) = false ∧
      itValid r (itPrev (initIter r)) = false := by
  intro r s
  refine ⟨rfl, rfl, rfl, rfl, ?_, ?_⟩ <;>
    simp [itValid, itSeekToLast, itPrev, initIter, data_start_offset]

/-- Claim C5.  `Open` hands out a reader exactly when both the
properties/magic validation (`ReadTableProperties`) and the eager mmap
read (`MmapDataIfNeeded`) succeed; any failure is returned as-is and the
output handle `*table_reader` stays unassigned. -/
theorem open_no_half_initialized_reader :
    ∀ (ps : Status) (ds : Nat) (ms : Status),
      ((rtreeOpen ps ds ms).2.isSome ↔ (ps = Status.ok ∧ ms = Status.ok)) ∧
      (ps ≠ Status.ok → rtreeOpen ps ds ms = (ps, none)) ∧
      (ps = Status.ok → ms ≠ Status.ok → rtreeOpen ps ds ms = (ms, none)) ∧
      (ps = Status.ok → ms = Status.ok →
        rtreeOpen ps ds ms = (Status.ok, some (mkReader ds))) := by
  intro ps ds ms
  cases ps <;> cases ms <;> simp [rtreeOpen, Status.isOk]

/-- Witness for C5 at concrete outcomes: a failed properties read, a failed
mmap, and full success. -/
theorem open_no_half_initialized_reader_witness :
    rtreeOpen Status.ioError 5 Status.ok = (Status.ioError, none) ∧
    rtreeOpen Status.ok 5 Status.corruption = (Status.corruption, none) ∧
    rtreeOpen Status.ok 5 Status.ok = (Status.ok, some (mkReader 5)) :=
  ⟨(open_no_half_initialized_reader Status.ioError 5 Status.ok).2.1 (by decide),
   (open_no_half_initialized_reader Status.ok 5 Status.corruption).2.2.1 rfl
     (by decide),
   (open_no_half_initialized_reader Status.ok 5 Status.ok).2.2.2 rfl rfl⟩

/-- Claim C6.  On a table whose data region is empty
(`data_end_offset = 0`), `SeekToFirst()` takes the early branch, changing
nothing (in particular decoding no record) and leaving the iterator
invalid; and `Get` with any well-formed target returns `Ok` with the
collector state untouched — since this holds for every collector step
function, the collector is never invoked. -/
theorem empty_data_region_behaviour :
    ∀ (r : RtreeTableReader), r.data_end_offset = 0 →
      (itSeekToFirst r (initIter r) = initIter r ∧
        itValid r (itSeekToFirst r (initIter r)) = false) ∧
      ∀ (σ : Type) (save : σ → Nat → Nat → Bool × σ) (ctx : σ)
        (t fk fv fuel : Nat),
        rtreeGet (fuel + 1) r (some t) save fk fv ctx
          = some (Status.ok, ctx) := by
  intro r h
  have h1 : itSeekToFirst r (initIter r) = initIter r := by
    simp [itSeekToFirst, initIter, data_start_offset, h]
  refine ⟨⟨h1, ?_⟩, ?_⟩
  · rw [h1]
    simp [itValid, initIter, h]
  · intro σ save ctx t fk fv fuel
    simp [rtreeGet, getLoop, h]

/-- Witness for C6 on the concrete empty-region table `mkReader 0`, with a
counting collector that would record any invocation. -/
theorem empty_data_region_behaviour_witness :
    itValid (mkReader 0) (itSeekToFirst (mkReader 0) (initIter (mkReader 0)))
      = false ∧
    rtreeGet 4 (mkReader 0) (some 9) (fun (n : Nat) _ _ => (true, n + 1)) 0 0 0
      = some (Status.ok, 0) :=
  ⟨(empty_data_region_behaviour (mkReader 0) rfl).1.2,
   (empty_data_region_behaviour (mkReader 0) rfl).2 Nat
     (fun n _ _ => (true, n + 1)) 0 9 0 0 3⟩

/-- Claim C7.  `ApproximateOffsetOf(key)` returns 0 for every key and
leaves the reader state unchanged (it performs no scan: its body is the
single statement `return 0;`). -/
theorem approximateOffsetOf_returns_zero :
    ∀ (r : RtreeTableReader) (k : Nat), approximateOffsetOf r k = (0, r) :=
  fun _ _ => rfl

/-- Claim C8.  The reader-level `RtreeTableReader::Next` returns `Ok` and
leaves the offset and every output slot unchanged; consequently a cursor
strictly inside a non-empty data region (its `offset_` equal to
`next_offset_`, as every in-region `Next()` leaves them) keeps the same
offset under any number of iterator `Next()` calls; and the `Get` loop
over a non-empty data region can only exit through the collector
returning `false` — with an always-continue collector it returns no
result at any fuel. -/
theorem reader_next_stub_frame_effects :
    (∀ off pk ik v, readerNext off pk ik v = (Status.ok, off, pk, ik, v)) ∧
    (∀ (r : RtreeTableReader) (s : IterState),
      s.offset = s.next_offset → s.next_offset < r.data_end_offset →
      ∀ n, ((itNext r)^[n] s).offset = s.offset) ∧
    (∀ (σ : Type) (r : RtreeTableReader) (t : Nat)
      (save : σ → Nat → Nat → Bool × σ),
      (∀ c k v, (save c k v).1 = true) → 0 < r.data_end_offset →
      ∀ fuel fk fv ctx,
        rtreeGet fuel r (some t) save fk fv ctx = none) := by
  refine ⟨fun _ _ _ _ => rfl, ?_, ?_⟩
  · intro r s h1 h2 n
    cases n with
    | zero => rfl
    | succ m =>
      have hstep : itNext r s
          = ⟨s.next_offset, s.next_offset, s.key, s.value, Status.ok⟩ :=
        itNext_inside r s h2
      have hfix : itNext r (⟨s.next_offset, s.next_offset, s.key, s.value,
          Status.ok⟩ : IterState)
          = ⟨s.next_offset, s.next_offset, s.key, s.value, Status.ok⟩ :=
        itNext_inside r _ h2
      rw [Function.iterate_succ_apply, hstep, Function.iterate_fixed hfix]
      exact h1.symm
  · intro σ r t save hsave hpos fuel fk fv ctx
    exact getLoop_none_of_save_true r t save
      (fun c k v => hsave c k v) fuel 0 fk fv ctx hpos

/-- Witness for C8: over `t1`, four `Next()` calls from `s1` keep the offset,
and `Get` with an always-continue collector yields no result at fuel 7. -/
theorem reader_next_stub_frame_effects_witness :
    ((itNext r1)^[4] s1).offset = s1.offset ∧
    rtreeGet 7 r1 (some 5) (fun (_ : Unit) _ _ => (true, ())) 2 3 ()
      = none :=
  ⟨reader_next_stub_frame_effects.2.1 r1 s1 (by decide) (by decide) 4,
   reader_next_stub_frame_effects.2.2 Unit r1 5 (fun _ _ _ => (true, ()))
     (fun _ _ _ => rfl) (by decide) 7 2 3 ()⟩

/-- Claim C9.  The reader constructor narrows the properties-reported
`data_size` with `static_cast<uint32_t>`, i.e. reduces it modulo `2^32`;
for `data_size >= 2^32` the resulting data-region bound is strictly
smaller than `data_size` (silent truncation), and `Open` with successful
collaborator steps still hands out the reader — no corruption error is
raised. -/
theorem data_end_offset_narrowing_cast :
    ∀ ds : Nat,
      (mkReader ds).data_end_offset = ds % 2 ^ 32 ∧
      (2 ^ 32 ≤ ds → (mkReader ds).data_end_offset < ds) ∧
      rtreeOpen Status.ok ds Status.ok = (Status.ok, some (mkReader ds)) := by
  intro ds
  refine ⟨rfl, ?_, rfl⟩
  intro h
  calc (mkReader ds).data_end_offset = ds % 2 ^ 32 := rfl
    _ < 2 ^ 32 := Nat.mod_lt _ (by norm_num)
    _ ≤ ds := h

/-- Witness for C9 at `data_size = 2^32 + 5`, which is truncated to 5. -/
theorem data_end_offset_narrowing_cast_witness :
    2 ^ 32 ≤ 2 ^ 32 + 5 ∧ (mkReader (2 ^ 32 + 5)).data_end_offset < 2 ^ 32 + 5 :=
  ⟨by norm_num, (data_end_offset_narrowing_cast (2 ^ 32 + 5)).2.1 (by norm_num)⟩

/-- Claim C10.  `key()` and `value()` assert `Valid()`: on a valid iterator
the assertion holds and the stored slices are returned; on an invalid one
(offset outside `[data_start_offset, data_end_offset)`) the assertion is
violated (modelled as `none`). -/
theorem key_value_accessor_assertion :
    ∀ (r : RtreeTableReader) (s : IterState),
      (itValid r s = true →
        itKeyAccess r s = some s.key ∧ itValueAccess r s = some s.value) ∧
      (itValid r s = false →
        itKeyAccess r s = none ∧ itValueAccess r s = none) := by
  intro r s
  constructor <;> intro h <;> simp [itKeyAccess, itValueAccess, h]

/-- Witness for C10: the valid state `s1` and the invalid fresh iterator
over `t1`. -/
theorem key_value_accessor_assertion_witness :
    itKeyAccess r1 s1 = some s1.key ∧
    itKeyAccess r1 (initIter r1) = none :=
  ⟨((key_value_accessor_assertion r1 s1).1 (by decide)).1,
   ((key_value_accessor_assertion r1 (initIter r1)).2 (by decide)).1⟩

end RtreeTable
